import Mathlib

/-!
Verification development for the sedb repository, centred on the RocksDB
access layer (RocksOperator). Pure definitions embed the data model and
operations; theorems settle the specified properties.
-/

set_option maxHeartbeats 1000000
set_option linter.unusedVariables false
set_option linter.unnecessarySeqFocus false

/-- Scalar value stored in the key-value store: integers and strings
round-trip exactly, preserving their scalar type. -/
inductive RVal where
  | vint : Int → RVal
  | vstr : String → RVal
deriving DecidableEq

/-- Contents of one database: an association list from keys to values,
newest entry first. -/
abbrev KVStore := List (String × RVal)

/-- Lookup of a key in a store: the newest binding wins. -/
def kvGet (kvs : KVStore) (k : String) : Option RVal :=
  (kvs.find? (fun e => e.1 == k)).map (fun e => e.2)

/-- On-disk state of one primary database path: the committed (flushed)
contents and the write-ahead log of buffered, not yet flushed writes. -/
structure DbState where
  committed : KVStore
  wal : KVStore
deriving DecidableEq

/-- The filesystem as seen by the access layer: which primary paths hold a
database and with what state, plus the set of existing secondary working
directories. -/
structure SysState where
  dbs : String → Option DbState
  secDirs : List String

/-- Whether a database exists at a primary path. -/
def hasDb (st : SysState) (p : String) : Bool :=
  (st.dbs p).isSome

/-- Database state at a primary path (empty when absent). -/
def getDb (st : SysState) (p : String) : DbState :=
  (st.dbs p).getD ⟨[], []⟩

/-- Replace (or create) the database at a primary path. -/
def setDb (st : SysState) (p : String) (d : DbState) : SysState :=
  { st with dbs := fun q => if q = p then some d else st.dbs q }

/-- Create a secondary working directory. -/
def mkDir (st : SysState) (sp : String) : SysState :=
  { st with secDirs := if sp ∈ st.secDirs then st.secDirs else sp :: st.secDirs }

/-- Recursively remove a secondary working directory. -/
def rmDir (st : SysState) (sp : String) : SysState :=
  { st with secDirs := st.secDirs.filter (fun q => q != sp) }

/-- The three access modes of a store handle. -/
inductive AccessMode where
  | readWrite
  | readOnly
  | secondary
deriving DecidableEq

/-- Access-mode selector string for read-write mode. -/
def ACCESS_READ_WRITE : String := "read_write"

/-- Access-mode selector string for read-only mode. -/
def ACCESS_READ_ONLY : String := "read_only"

/-- Access-mode selector string for secondary mode. -/
def ACCESS_SECONDARY : String := "secondary"

/-- Selector string of a mode. -/
def modeName : AccessMode → String
  | .readWrite => ACCESS_READ_WRITE
  | .readOnly => ACCESS_READ_ONLY
  | .secondary => ACCESS_SECONDARY

/-- Error taxonomy of the access layer. -/
inductive RocksError where
  | invalidConfiguration : String → RocksError
  | notFound : String → RocksError
  | notWritable : String → RocksError
  | wrongMode : String → RocksError
deriving DecidableEq

/-- Configuration bundle consumed at construction: a primary path, an
optional access-mode selector and an optional secondary working-directory
override. -/
structure RocksConfigs where
  db_path : String
  access_type : Option String
  secondary_path : Option String
deriving DecidableEq

/-- Modelled from the spec: the access-mode selector parser of the
mode-aware RocksOperator, which is absent from src/src/sedb/rocks.py (only
its tests exist under tests/). An omitted selector defaults to read-write;
any selector other than the three recognized strings fails with
InvalidConfiguration before any filesystem interaction. -/
def parseAccessType : Option String → Except RocksError AccessMode
  | none => .ok .readWrite
  | some s =>
    if s = ACCESS_READ_WRITE then .ok .readWrite
    else if s = ACCESS_READ_ONLY then .ok .readOnly
    else if s = ACCESS_SECONDARY then .ok .secondary
    else .error (.invalidConfiguration ("Invalid access_type: " ++ s))

/-- Whether an access-mode selector is recognized (an omitted selector is
valid and defaults to read-write). -/
def validAccessType : Option String → Bool
  | none => true
  | some s => s == ACCESS_READ_WRITE || s == ACCESS_READ_ONLY || s == ACCESS_SECONDARY

/-- A store handle: one open binding of a process to a database directory.
The snapshot field is the frozen local view of read-only and secondary
handles; read-write handles read through the filesystem state. -/
structure Handle where
  db_path : String
  mode : AccessMode
  secondary_path : Option String
  snapshot : KVStore
  isOpen : Bool
deriving DecidableEq

/-- Modelled from the spec: construction and open of the mode-aware
RocksOperator, absent from src/src/sedb/rocks.py. The selector is parsed
first; read-write opens the primary path, creating it when missing;
read-only and secondary fail with NotFound when the primary path is
missing, and otherwise take a snapshot of the committed state; secondary
additionally derives its working directory (the caller override, or the
primary path suffixed with .secondary.pid) and creates it. -/
def openHandle (cfg : RocksConfigs) (pid : Nat) (st : SysState) :
    Except RocksError (Handle × SysState) :=
  match parseAccessType cfg.access_type with
  | .error e => .error e
  | .ok .readWrite =>
    if hasDb st cfg.db_path then
      .ok ({ db_path := cfg.db_path, mode := .readWrite, secondary_path := none,
             snapshot := [], isOpen := true }, st)
    else
      .ok ({ db_path := cfg.db_path, mode := .readWrite, secondary_path := none,
             snapshot := [], isOpen := true }, setDb st cfg.db_path ⟨[], []⟩)
  | .ok .readOnly =>
    if hasDb st cfg.db_path then
      .ok ({ db_path := cfg.db_path, mode := .readOnly, secondary_path := none,
             snapshot := (getDb st cfg.db_path).committed, isOpen := true }, st)
    else
      .error (.notFound ("Cannot open non-existent DB: " ++ cfg.db_path))
  | .ok .secondary =>
    if hasDb st cfg.db_path then
      let sp := cfg.secondary_path.getD (cfg.db_path ++ ".secondary." ++ toString pid)
      .ok ({ db_path := cfg.db_path, mode := .secondary, secondary_path := some sp,
             snapshot := (getDb st cfg.db_path).committed, isOpen := true }, mkDir st sp)
    else
      .error (.notFound ("Cannot open non-existent DB: " ++ cfg.db_path))

/-- Modelled from the spec: point read. Read-write handles observe their
own buffered writes over the committed state; read-only and secondary
handles read their frozen snapshot. Returns none as the not-found
indicator. -/
def Handle.get (h : Handle) (st : SysState) (k : String) : Option RVal :=
  match h.mode with
  | .readWrite => kvGet (getDb st h.db_path).wal k <|> kvGet (getDb st h.db_path).committed k
  | _ => kvGet h.snapshot k

/-- Modelled from the spec: batched read, positionally aligned with the
input key sequence. -/
def Handle.mget (h : Handle) (st : SysState) (ks : List String) : List (Option RVal) :=
  ks.map (fun k => Handle.get h st k)

/-- Modelled from the spec: point write. Permitted only in read-write
mode, where it appends to the write-ahead log of the primary path; in the
other modes it fails with NotWritable naming the operation and the mode,
leaving the handle and the filesystem unchanged. -/
def Handle.set (h : Handle) (st : SysState) (k : String) (v : RVal) :
    Except RocksError Unit × Handle × SysState :=
  match h.mode with
  | .readWrite =>
    (.ok (), h, setDb st h.db_path ⟨(getDb st h.db_path).committed, (k, v) :: (getDb st h.db_path).wal⟩)
  | m => (.error (.notWritable ("Cannot set in " ++ modeName m ++ " mode")), h, st)

/-- Modelled from the spec: batched write, same write guard as set. Later
entries of the mapping are newer. -/
def Handle.mset (h : Handle) (st : SysState) (kvs : List (String × RVal)) :
    Except RocksError Unit × Handle × SysState :=
  match h.mode with
  | .readWrite =>
    (.ok (), h, setDb st h.db_path ⟨(getDb st h.db_path).committed, kvs.reverse ++ (getDb st h.db_path).wal⟩)
  | m => (.error (.notWritable ("Cannot mset in " ++ modeName m ++ " mode")), h, st)

/-- Modelled from the spec: flush. In read-write mode the buffered writes
of the primary path become committed; in read-only and secondary modes it
is a deliberate no-op that never fails. -/
def Handle.flush (h : Handle) (st : SysState) : Handle × SysState :=
  match h.mode with
  | .readWrite =>
    (h, setDb st h.db_path ⟨(getDb st h.db_path).wal ++ (getDb st h.db_path).committed, []⟩)
  | _ => (h, st)

/-- Modelled from the spec: catch-up. Permitted only in secondary mode,
where it refreshes the frozen snapshot to the committed state of the
primary path; in any other mode it fails with WrongMode naming the
operation and the required mode. -/
def Handle.catch_up (h : Handle) (st : SysState) :
    Except RocksError Unit × Handle × SysState :=
  match h.mode with
  | .secondary =>
    (.ok (), { h with snapshot := (getDb st h.db_path).committed }, st)
  | _ => (.error (.wrongMode ("catch_up is only available in " ++ ACCESS_SECONDARY ++ " mode")), h, st)

/-- Modelled from the spec: close. Idempotent: an already-closed handle is
left untouched; closing an open secondary handle removes its working
directory. Never fails. -/
def Handle.close (h : Handle) (st : SysState) : Handle × SysState :=
  if h.isOpen then
    match h.mode, h.secondary_path with
    | .secondary, some sp => ({ h with isOpen := false }, rmDir st sp)
    | _, _ => ({ h with isOpen := false }, st)
  else (h, st)

/-! Embedding of the RocksOperator that is present in src/src/sedb/rocks.py:
construction, connect and close, with logging made explicit as a list of
emitted lines so that the influence of the verbose and indent settings is
observable. -/

/-- Configuration bundle of the source RocksOperator (RocksConfigsType):
only the db_path entry. -/
structure PyRocksConfigs where
  db_path : String
deriving DecidableEq

/-- The engine binding returned by rocksdbpy.open_default: the resolved
path it was opened on and whether it is still open. -/
structure EngineHandle where
  path : String
  isOpen : Bool
deriving DecidableEq

/-- State of the source RocksOperator object: the stored constructor
arguments, the resolved db_path and the engine binding (none before
connect). -/
structure PyRocksOperator where
  configs : PyRocksConfigs
  connect_at_init : Bool
  connect_msg : Option String
  indent : Nat
  verbose : Bool
  db_path : String
  db : Option EngineHandle
deriving DecidableEq

/-- RocksOperator.connect: logs the target and timestamp when verbose,
computes the Created or Opened status from the existence of the path, and
opens the engine on the resolved db_path. The parameters resolve, fsHas
and now stand for Path.resolve, Path.exists and get_now_str. Returns the
updated object and the emitted log lines. -/
def PyRocksOperator.connect (resolve : String → String) (fsHas : String → Bool)
    (now : String) (op : PyRocksOperator) (cm : Option String) :
    PyRocksOperator × List String :=
  let headLog : List String :=
    if op.verbose then
      ["> Connecting to: [" ++ op.db_path ++ "]", "  * " ++ now]
        ++ (match cm <|> op.connect_msg with
            | some m => ["  * " ++ m]
            | none => [])
    else []
  let status := if fsHas op.db_path then "Opened" else "Created"
  let okLog : List String :=
    if op.verbose then ["  * RocksDB: [" ++ status ++ "] @" ++ toString op.indent]
    else []
  ({ op with db := some { path := resolve op.db_path, isOpen := true } },
   headLog ++ okLog)

/-- RocksOperator.__init__ followed by init_configs and, when
connect_at_init holds, connect: stores the arguments, resolves db_path
from the configuration and optionally connects. -/
def mkRocksOperator (resolve : String → String) (fsHas : String → Bool) (now : String)
    (configs : PyRocksConfigs) (connect_at_init : Bool) (connect_msg : Option String)
    (indent : Nat) (verbose : Bool) : PyRocksOperator × List String :=
  let op0 : PyRocksOperator :=
    { configs := configs, connect_at_init := connect_at_init,
      connect_msg := connect_msg, indent := indent, verbose := verbose,
      db_path := configs.db_path, db := none }
  if connect_at_init then PyRocksOperator.connect resolve fsHas now op0 connect_msg
  else (op0, [])

/-- RocksOperator.close: calls close on the engine binding (an
AttributeError surfaces when connect never ran and the attribute is
missing) and logs the Closed status when verbose. -/
def PyRocksOperator.close (op : PyRocksOperator) :
    Except String (PyRocksOperator × List String) :=
  match op.db with
  | none => .error "AttributeError: RocksOperator object has no attribute db"
  | some e =>
    .ok ({ op with db := some { e with isOpen := false } },
      if op.verbose then ["  * RocksDB: [Closed] @" ++ toString op.indent] else [])

/-! Helper lemmas about the filesystem model. -/

theorem getDb_setDb_same (st : SysState) (p : String) (d : DbState) :
    getDb (setDb st p d) p = d := by
  simp [getDb, setDb]

theorem hasDb_setDb_same (st : SysState) (p : String) (d : DbState) :
    hasDb (setDb st p d) p = true := by
  simp [hasDb, setDb]

theorem kvGet_cons_self (k : String) (v : RVal) (l : KVStore) :
    kvGet ((k, v) :: l) k = some v := by
  simp [kvGet, List.find?]

theorem openHandle_invalid_selector (cfg : RocksConfigs) (pid : Nat) (st : SysState)
    (s : String) (hsel : cfg.access_type = some s)
    (h1 : ¬s = ACCESS_READ_WRITE) (h2 : ¬s = ACCESS_READ_ONLY)
    (h3 : ¬s = ACCESS_SECONDARY) :
    openHandle cfg pid st
      = Except.error (RocksError.invalidConfiguration ("Invalid access_type: " ++ s)) := by
  simp only [openHandle, parseAccessType, hsel]
  rw [if_neg h1, if_neg h2, if_neg h3]

theorem validAccessType_false (s : String) (hval : validAccessType (some s) = false) :
    ¬s = ACCESS_READ_WRITE ∧ ¬s = ACCESS_READ_ONLY ∧ ¬s = ACCESS_SECONDARY := by
  simp only [validAccessType, Bool.or_eq_false_iff, beq_eq_false_iff_ne, ne_eq] at hval
  exact ⟨hval.1.1, hval.1.2, hval.2⟩

/-- C1: construction succeeds only when the access-mode selector is one of
read_write, read_only, secondary or omitted (defaulting to read-write);
any other selector value fails with InvalidConfiguration, uniformly in the
filesystem state. -/
theorem c1_access_type_validation (cfg : RocksConfigs) (pid : Nat) (st : SysState) :
    ((openHandle cfg pid st).isOk = true → validAccessType cfg.access_type = true)
    ∧ (∀ s, cfg.access_type = some s → validAccessType (some s) = false →
        openHandle cfg pid st
          = Except.error (RocksError.invalidConfiguration ("Invalid access_type: " ++ s)))
    ∧ (cfg.access_type = none →
        ∃ h st2, openHandle cfg pid st = Except.ok (h, st2)
          ∧ h.mode = AccessMode.readWrite) := by
  refine ⟨?_, ?_, ?_⟩
  · intro hok
    rcases hsel : cfg.access_type with _ | s
    · rfl
    · by_contra hval
      rw [Bool.not_eq_true] at hval
      obtain ⟨h1, h2, h3⟩ := validAccessType_false s hval
      rw [openHandle_invalid_selector cfg pid st s hsel h1 h2 h3] at hok
      simp [Except.isOk, Except.toBool] at hok
  · intro s hsel hval
    obtain ⟨h1, h2, h3⟩ := validAccessType_false s hval
    exact openHandle_invalid_selector cfg pid st s hsel h1 h2 h3
  · intro hsel
    by_cases hdb : hasDb st cfg.db_path
    · exact ⟨⟨cfg.db_path, .readWrite, none, [], true⟩, st,
        by simp [openHandle, parseAccessType, hsel, hdb], rfl⟩
    · exact ⟨⟨cfg.db_path, .readWrite, none, [], true⟩, setDb st cfg.db_path ⟨[], []⟩,
        by simp [openHandle, parseAccessType, hsel, hdb], rfl⟩

/-- Witness for C1 at a concrete configuration with an unrecognized
selector. -/
theorem c1_access_type_validation_witness :
    openHandle ⟨"db", some "bogus", none⟩ 0 ⟨fun _ => none, []⟩
      = Except.error (RocksError.invalidConfiguration ("Invalid access_type: " ++ "bogus")) :=
  (c1_access_type_validation ⟨"db", some "bogus", none⟩ 0 ⟨fun _ => none, []⟩).2.1
    "bogus" rfl (by decide)

/-- C2: against a primary path with no existing database, read-only and
secondary opens fail with NotFound and return no handle, while a
read-write open succeeds with an open read-write handle and creates the
database at the path. -/
theorem c2_missing_primary_path (cfg : RocksConfigs) (pid : Nat) (st : SysState)
    (hmiss : hasDb st cfg.db_path = false) :
    ((cfg.access_type = some ACCESS_READ_ONLY ∨ cfg.access_type = some ACCESS_SECONDARY) →
       openHandle cfg pid st
         = Except.error (RocksError.notFound ("Cannot open non-existent DB: " ++ cfg.db_path)))
    ∧ ((cfg.access_type = none ∨ cfg.access_type = some ACCESS_READ_WRITE) →
       ∃ h st2, openHandle cfg pid st = Except.ok (h, st2)
         ∧ h.mode = AccessMode.readWrite ∧ h.isOpen = true
         ∧ hasDb st2 cfg.db_path = true) := by
  constructor
  · rintro (hsel | hsel) <;>
      simp [openHandle, parseAccessType, hsel, ACCESS_READ_WRITE, ACCESS_READ_ONLY,
        ACCESS_SECONDARY, hmiss]
  · rintro (hsel | hsel) <;>
      exact ⟨⟨cfg.db_path, .readWrite, none, [], true⟩, setDb st cfg.db_path ⟨[], []⟩,
        by simp [openHandle, parseAccessType, hsel, ACCESS_READ_WRITE, ACCESS_READ_ONLY,
          ACCESS_SECONDARY, hmiss],
        rfl, rfl, hasDb_setDb_same st cfg.db_path ⟨[], []⟩⟩

/-- Witness for C2 at a concrete missing path, in read-only mode. -/
theorem c2_missing_primary_path_witness :
    openHandle ⟨"db", some ACCESS_READ_ONLY, none⟩ 0 ⟨fun _ => none, []⟩
      = Except.error (RocksError.notFound ("Cannot open non-existent DB: " ++ "db")) :=
  (c2_missing_primary_path ⟨"db", some ACCESS_READ_ONLY, none⟩ 0 ⟨fun _ => none, []⟩
    rfl).1 (Or.inl rfl)

/-- C3: on an open read-only or secondary handle, set and mset fail with a
NotWritable error naming the operation and the active mode, and leave both
the handle (still open) and the filesystem state untouched. -/
theorem c3_write_guard (h : Handle) (st : SysState) (k : String) (v : RVal)
    (kvs : List (String × RVal)) (hopen : h.isOpen = true)
    (hmode : h.mode = AccessMode.readOnly ∨ h.mode = AccessMode.secondary) :
    Handle.set h st k v
      = (Except.error (RocksError.notWritable
          ("Cannot set in " ++ modeName h.mode ++ " mode")), h, st)
    ∧ Handle.mset h st kvs
      = (Except.error (RocksError.notWritable
          ("Cannot mset in " ++ modeName h.mode ++ " mode")), h, st) := by
  rcases hmode with hm | hm <;> exact ⟨by simp [Handle.set, hm], by simp [Handle.mset, hm]⟩

/-- Witness for C3 on a concrete open read-only handle. -/
theorem c3_write_guard_witness :
    Handle.set ⟨"db", AccessMode.readOnly, none, [], true⟩ ⟨fun _ => none, []⟩ "k" (RVal.vint 1)
      = (Except.error (RocksError.notWritable
          ("Cannot set in " ++ modeName AccessMode.readOnly ++ " mode")),
         ⟨"db", AccessMode.readOnly, none, [], true⟩, ⟨fun _ => none, []⟩) :=
  (c3_write_guard ⟨"db", AccessMode.readOnly, none, [], true⟩ ⟨fun _ => none, []⟩
    "k" (RVal.vint 1) [] rfl (Or.inl rfl)).1

/-- C4: catch-up fails with WrongMode naming the operation and the
required mode on every non-secondary handle; on a secondary handle it
never fails, and after a read-write handle on the same primary path
writes and flushes a key that the secondary could not previously see, a
subsequent catch-up makes that key visible to get. -/
theorem c4_catch_up_protocol (h hw hs : Handle) (st : SysState) (k : String) (v : RVal) :
    (h.mode ≠ AccessMode.secondary →
       Handle.catch_up h st
         = (Except.error (RocksError.wrongMode
             ("catch_up is only available in " ++ ACCESS_SECONDARY ++ " mode")), h, st))
    ∧ (h.mode = AccessMode.secondary → (Handle.catch_up h st).1 = Except.ok ())
    ∧ (hs.mode = AccessMode.secondary → hw.mode = AccessMode.readWrite →
       hs.db_path = hw.db_path → Handle.get hs st k = none →
       Handle.get (Handle.catch_up hs (Handle.flush hw (Handle.set hw st k v).2.2).2).2.1
         (Handle.flush hw (Handle.set hw st k v).2.2).2 k = some v) := by
  refine ⟨?_, ?_, ?_⟩
  · intro hm
    rcases hmode : h.mode with _ | _ | _ <;> simp [Handle.catch_up, hmode] <;>
      exact absurd hmode hm
  · intro hm
    simp [Handle.catch_up, hm]
  · intro hss hww hpath habs
    simp [Handle.set, Handle.flush, Handle.catch_up, Handle.get, hss, hww, hpath,
      getDb_setDb_same, kvGet_cons_self]

/-- Witness for C4: a concrete read-only handle is refused catch-up, and a
concrete write-flush-catch-up round on a shared path makes the new key
visible to the secondary. -/
theorem c4_catch_up_protocol_witness :
    Handle.catch_up ⟨"db", AccessMode.readOnly, none, [], true⟩ ⟨fun _ => none, []⟩
      = (Except.error (RocksError.wrongMode
          ("catch_up is only available in " ++ ACCESS_SECONDARY ++ " mode")),
         ⟨"db", AccessMode.readOnly, none, [], true⟩, ⟨fun _ => none, []⟩)
    ∧ Handle.get
        (Handle.catch_up ⟨"db", AccessMode.secondary, some "db.secondary.0", [], true⟩
          (Handle.flush ⟨"db", AccessMode.readWrite, none, [], true⟩
            (Handle.set ⟨"db", AccessMode.readWrite, none, [], true⟩
              ⟨fun _ => none, []⟩ "k" (RVal.vint 7)).2.2).2).2.1
        (Handle.flush ⟨"db", AccessMode.readWrite, none, [], true⟩
          (Handle.set ⟨"db", AccessMode.readWrite, none, [], true⟩
            ⟨fun _ => none, []⟩ "k" (RVal.vint 7)).2.2).2 "k" = some (RVal.vint 7) :=
  ⟨(c4_catch_up_protocol ⟨"db", AccessMode.readOnly, none, [], true⟩
      ⟨"db", AccessMode.readWrite, none, [], true⟩
      ⟨"db", AccessMode.secondary, some "db.secondary.0", [], true⟩
      ⟨fun _ => none, []⟩ "k" (RVal.vint 7)).1 (by decide),
   (c4_catch_up_protocol ⟨"db", AccessMode.readOnly, none, [], true⟩
      ⟨"db", AccessMode.readWrite, none, [], true⟩
      ⟨"db", AccessMode.secondary, some "db.secondary.0", [], true⟩
      ⟨fun _ => none, []⟩ "k" (RVal.vint 7)).2.2 rfl rfl rfl rfl⟩

theorem mkDir_mem_self (st : SysState) (sp : String) : sp ∈ (mkDir st sp).secDirs := by
  by_cases hmem : sp ∈ st.secDirs <;> simp [mkDir, hmem]

theorem rmDir_not_mem (st : SysState) (sp : String) : sp ∉ (rmDir st sp).secDirs := by
  simp [rmDir, List.mem_filter]

/-- C5 counterexample to privacy of the secondary working directory: two
secondary handles opened in the same process against the same primary
path with no override are both open and share the same working directory,
and closing the first removes the directory while the second is still
open. -/
theorem c5_shared_secondary_dir_counterexample :
    ((openHandle ⟨"db", some "secondary", none⟩ 7
        ⟨fun p => if p = "db" then some ⟨[], []⟩ else none, []⟩).toOption.bind
      (fun r1 => ((openHandle ⟨"db", some "secondary", none⟩ 7 r1.2).toOption.map
        (fun r2 => (r1.1.isOpen, r2.1.isOpen, r1.1.secondary_path, r2.1.secondary_path,
          (Handle.close r1.1 r2.2).2.secDirs)))))
      = some (true, true, some "db.secondary.7", some "db.secondary.7", []) := by
  rfl

/-- C5 as amended: a secondary handle's working directory equals the
caller-supplied override exactly when one is given and otherwise is
derived as the primary path suffixed with .secondary.pid; it is created
on open and removed on close. -/
theorem c5_secondary_dir_lifecycle (cfg : RocksConfigs) (pid : Nat) (st : SysState)
    (h : Handle) (st2 : SysState)
    (hsel : cfg.access_type = some ACCESS_SECONDARY)
    (hok : openHandle cfg pid st = Except.ok (h, st2)) :
    (∀ p, cfg.secondary_path = some p → h.secondary_path = some p)
    ∧ (cfg.secondary_path = none →
        h.secondary_path = some (cfg.db_path ++ ".secondary." ++ toString pid))
    ∧ (∀ sp, h.secondary_path = some sp → sp ∈ st2.secDirs)
    ∧ (∀ sp, h.secondary_path = some sp → sp ∉ (Handle.close h st2).2.secDirs) := by
  simp only [openHandle, parseAccessType, hsel, ACCESS_READ_WRITE, ACCESS_READ_ONLY,
    ACCESS_SECONDARY, String.reduceEq, reduceIte] at hok
  by_cases hdb : hasDb st cfg.db_path
  · rw [if_pos hdb, Except.ok.injEq, Prod.mk.injEq] at hok
    obtain ⟨hh, hst⟩ := hok
    subst hh hst
    refine ⟨?_, ?_, ?_, ?_⟩
    · intro p hp; simp [hp]
    · intro hp; simp [hp]
    · intro sp hsp
      simp only [Option.some.injEq] at hsp
      rw [← hsp]
      exact mkDir_mem_self st _
    · intro sp hsp
      simp only [Option.some.injEq] at hsp
      simp only [Handle.close, if_pos rfl]
      rw [← hsp]
      exact rmDir_not_mem _ _
  · rw [if_neg hdb] at hok
    exact absurd hok (by simp)

/-- Witness for C5 at a concrete configuration with no override. -/
theorem c5_secondary_dir_lifecycle_witness :
    Handle.secondary_path ⟨"db", AccessMode.secondary, some "db.secondary.7", [], true⟩
      = some ("db" ++ ".secondary." ++ toString 7) :=
  (c5_secondary_dir_lifecycle ⟨"db", some ACCESS_SECONDARY, none⟩ 7
    ⟨fun p => if p = "db" then some ⟨[], []⟩ else none, []⟩
    ⟨"db", AccessMode.secondary, some "db.secondary.7", [], true⟩
    (mkDir ⟨fun p => if p = "db" then some ⟨[], []⟩ else none, []⟩ "db.secondary.7")
    rfl rfl).2.1 rfl

/-- C6: close is idempotent and closing an already-closed handle (or one
whose construction never opened it) leaves handle and filesystem
untouched; close is a total operation and never fails. -/
theorem c6_close_idempotent (h : Handle) (st : SysState) :
    Handle.close (Handle.close h st).1 (Handle.close h st).2 = Handle.close h st
    ∧ (h.isOpen = false → Handle.close h st = (h, st)) := by
  constructor
  · by_cases ho : h.isOpen
    · rcases hm : h.mode with _ | _ | _ <;> rcases hsp : h.secondary_path with _ | sp <;>
        simp [Handle.close, ho, hm, hsp]
    · simp [Handle.close, ho]
  · intro ho
    simp [Handle.close, ho]

/-- Witness for C6 on a concrete never-opened handle. -/
theorem c6_close_idempotent_witness :
    Handle.close ⟨"db", AccessMode.readWrite, none, [], false⟩ ⟨fun _ => none, []⟩
      = (⟨"db", AccessMode.readWrite, none, [], false⟩, ⟨fun _ => none, []⟩) :=
  (c6_close_idempotent ⟨"db", AccessMode.readWrite, none, [], false⟩
    ⟨fun _ => none, []⟩).2 rfl

theorem kvGet_append_left (l1 l2 : KVStore) (k : String) (v : RVal)
    (hv : kvGet l1 k = some v) : kvGet (l1 ++ l2) k = some v := by
  simp only [kvGet, Option.map_eq_some'] at hv
  obtain ⟨e, he, hev⟩ := hv
  simp [kvGet, List.find?_append, he, hev]

/-- C7: a value written by set on a read-write handle, or the winning
value a key receives from an mset mapping (later entries of the mapping
overwrite earlier ones), is returned exactly (its scalar type preserved)
by get and mget on the same handle, by get on a read-only handle opened
on the same primary path after a flush, and by get on a secondary handle
for the same primary path after a flush and catch-up. -/
theorem c7_round_trip (h : Handle) (st : SysState) (k : String) (v : RVal) (pid : Nat)
    (kvs : List (String × RVal)) (hw : h.mode = AccessMode.readWrite) :
    Handle.get h (Handle.set h st k v).2.2 k = some v
    ∧ Handle.mget h (Handle.set h st k v).2.2 [k] = [some v]
    ∧ (∀ h2 st3,
        openHandle ⟨h.db_path, some ACCESS_READ_ONLY, none⟩ pid
            (Handle.flush h (Handle.set h st k v).2.2).2 = Except.ok (h2, st3) →
        Handle.get h2 st3 k = some v)
    ∧ (∀ hs : Handle, hs.mode = AccessMode.secondary → hs.db_path = h.db_path →
        Handle.get (Handle.catch_up hs (Handle.flush h (Handle.set h st k v).2.2).2).2.1
          (Handle.flush h (Handle.set h st k v).2.2).2 k = some v)
    ∧ (kvGet kvs.reverse k = some v →
        Handle.get h (Handle.mset h st kvs).2.2 k = some v
        ∧ Handle.mget h (Handle.mset h st kvs).2.2 [k] = [some v]
        ∧ (∀ h2 st3,
            openHandle ⟨h.db_path, some ACCESS_READ_ONLY, none⟩ pid
                (Handle.flush h (Handle.mset h st kvs).2.2).2 = Except.ok (h2, st3) →
            Handle.get h2 st3 k = some v)
        ∧ (∀ hs : Handle, hs.mode = AccessMode.secondary → hs.db_path = h.db_path →
            Handle.get
              (Handle.catch_up hs (Handle.flush h (Handle.mset h st kvs).2.2).2).2.1
              (Handle.flush h (Handle.mset h st kvs).2.2).2 k = some v)) := by
  refine ⟨?_, ?_, ?_, ?_, ?_⟩
  · simp [Handle.set, Handle.get, hw, getDb_setDb_same, kvGet_cons_self]
  · simp [Handle.mget, Handle.set, Handle.get, hw, getDb_setDb_same, kvGet_cons_self]
  · intro h2 st3 hok
    simp only [openHandle, parseAccessType, ACCESS_READ_WRITE, ACCESS_READ_ONLY,
      ACCESS_SECONDARY, String.reduceEq, reduceIte, Handle.set, Handle.flush, hw,
      getDb_setDb_same, hasDb_setDb_same] at hok
    rw [Except.ok.injEq, Prod.mk.injEq] at hok
    obtain ⟨hh, hst⟩ := hok
    subst hh hst
    simp [Handle.get, getDb_setDb_same, kvGet_cons_self]
  · intro hs hss hpath
    simp [Handle.set, Handle.flush, Handle.catch_up, Handle.get, hss, hw, hpath,
      getDb_setDb_same, kvGet_cons_self]
  · intro hm
    have hwal := kvGet_append_left kvs.reverse (getDb st h.db_path).wal k v hm
    have hcom := kvGet_append_left kvs.reverse
      ((getDb st h.db_path).wal ++ (getDb st h.db_path).committed) k v hm
    have hcom2 := kvGet_append_left (kvs.reverse ++ (getDb st h.db_path).wal)
      (getDb st h.db_path).committed k v hwal
    refine ⟨?_, ?_, ?_, ?_⟩
    · simp [Handle.mset, Handle.get, hw, getDb_setDb_same, hwal]
    · simp [Handle.mget, Handle.mset, Handle.get, hw, getDb_setDb_same, hwal]
    · intro h2 st3 hok
      simp only [openHandle, parseAccessType, ACCESS_READ_WRITE, ACCESS_READ_ONLY,
        ACCESS_SECONDARY, String.reduceEq, reduceIte, Handle.mset, Handle.flush, hw,
        getDb_setDb_same, hasDb_setDb_same] at hok
      rw [Except.ok.injEq, Prod.mk.injEq] at hok
      obtain ⟨hh, hst⟩ := hok
      subst hh hst
      simp [Handle.get, getDb_setDb_same, hcom, hcom2]
    · intro hs hss hpath
      simp [Handle.mset, Handle.flush, Handle.catch_up, Handle.get, hss, hw, hpath,
        getDb_setDb_same, hcom, hcom2]

/-- Witness for C7: a concrete integer value round-trips through set and
get with its type preserved, and an mset mapping that writes the key
twice round-trips its later, winning value through get. -/
theorem c7_round_trip_witness :
    Handle.get ⟨"db", AccessMode.readWrite, none, [], true⟩
      (Handle.set ⟨"db", AccessMode.readWrite, none, [], true⟩
        ⟨fun _ => none, []⟩ "n" (RVal.vint 42)).2.2 "n" = some (RVal.vint 42)
    ∧ Handle.get ⟨"db", AccessMode.readWrite, none, [], true⟩
        (Handle.mset ⟨"db", AccessMode.readWrite, none, [], true⟩ ⟨fun _ => none, []⟩
          [("n", RVal.vint 1), ("n", RVal.vint 2), ("m", RVal.vstr "z")]).2.2 "n"
        = some (RVal.vint 2) :=
  ⟨(c7_round_trip ⟨"db", AccessMode.readWrite, none, [], true⟩ ⟨fun _ => none, []⟩
      "n" (RVal.vint 42) 0 [] rfl).1,
   ((c7_round_trip ⟨"db", AccessMode.readWrite, none, [], true⟩ ⟨fun _ => none, []⟩
      "n" (RVal.vint 2) 0 [("n", RVal.vint 1), ("n", RVal.vint 2), ("m", RVal.vstr "z")]
      rfl).2.2.2.2 rfl).1⟩

/-- C8: mget returns one value per input key, positionally aligned: the
output has the length of the input, position i holds the get of key i,
and an absent key yields the not-found indicator none at its position. -/
theorem c8_mget_alignment (h : Handle) (st : SysState) (ks : List String)
    (hopen : h.isOpen = true) :
    (Handle.mget h st ks).length = ks.length
    ∧ (∀ i : Nat, (Handle.mget h st ks)[i]? = (ks[i]?).map (fun k => Handle.get h st k))
    ∧ (∀ (i : Nat) (k : String), ks[i]? = some k → Handle.get h st k = none →
        (Handle.mget h st ks)[i]? = some none) := by
  refine ⟨by simp [Handle.mget], ?_, ?_⟩
  · intro i
    simp [Handle.mget]
  · intro i k hk hnone
    simp [Handle.mget, hk, hnone]

/-- Witness for C8 on a concrete key list with one present and one absent
key. -/
theorem c8_mget_alignment_witness :
    (Handle.mget ⟨"db", AccessMode.readOnly, none, [("a", RVal.vstr "x")], true⟩
        ⟨fun _ => none, []⟩ ["a", "b"]).length = 2
    ∧ (Handle.mget ⟨"db", AccessMode.readOnly, none, [("a", RVal.vstr "x")], true⟩
        ⟨fun _ => none, []⟩ ["a", "b"])[1]? = some none :=
  ⟨(c8_mget_alignment ⟨"db", AccessMode.readOnly, none, [("a", RVal.vstr "x")], true⟩
      ⟨fun _ => none, []⟩ ["a", "b"] rfl).1,
   (c8_mget_alignment ⟨"db", AccessMode.readOnly, none, [("a", RVal.vstr "x")], true⟩
      ⟨fun _ => none, []⟩ ["a", "b"] rfl).2.2 1 "b" rfl rfl⟩

/-- C9: flush on a read-only or secondary handle is a no-op that changes
neither the handle nor the filesystem and never fails; on a read-write
handle it leaves the handle fixed and commits the buffered writes of the
primary path, emptying its write-ahead log. -/
theorem c9_flush_modes (h : Handle) (st : SysState) :
    ((h.mode = AccessMode.readOnly ∨ h.mode = AccessMode.secondary) →
       Handle.flush h st = (h, st))
    ∧ (h.mode = AccessMode.readWrite →
       (Handle.flush h st).1 = h
       ∧ getDb (Handle.flush h st).2 h.db_path
           = ⟨(getDb st h.db_path).wal ++ (getDb st h.db_path).committed, []⟩) := by
  constructor
  · rintro (hm | hm) <;> simp [Handle.flush, hm]
  · intro hm
    exact ⟨by simp [Handle.flush, hm], by simp [Handle.flush, hm, getDb_setDb_same]⟩

/-- Witness for C9 on a concrete read-only handle. -/
theorem c9_flush_modes_witness :
    Handle.flush ⟨"db", AccessMode.readOnly, none, [], true⟩ ⟨fun _ => none, []⟩
      = (⟨"db", AccessMode.readOnly, none, [], true⟩, ⟨fun _ => none, []⟩) :=
  (c9_flush_modes ⟨"db", AccessMode.readOnly, none, [], true⟩
    ⟨fun _ => none, []⟩).1 (Or.inl rfl)

/-- C10: for a fixed configuration and filesystem, the operator state
produced by construction and connect, projected to the resolved db_path
and the engine binding, is identical across all verbose and indent
settings, and so is the projected result of close; those settings
influence only the emitted log lines. -/
theorem c10_verbose_indent_noninterference (resolve : String → String)
    (fsHas : String → Bool) (now : String) (configs : PyRocksConfigs)
    (cai : Bool) (cm : Option String) (i1 i2 : Nat) (v1 v2 : Bool) :
    (mkRocksOperator resolve fsHas now configs cai cm i1 v1).1.db_path
      = (mkRocksOperator resolve fsHas now configs cai cm i2 v2).1.db_path
    ∧ (mkRocksOperator resolve fsHas now configs cai cm i1 v1).1.db
      = (mkRocksOperator resolve fsHas now configs cai cm i2 v2).1.db
    ∧ (PyRocksOperator.close (mkRocksOperator resolve fsHas now configs cai cm i1 v1).1).map
        (fun r => (r.1.db_path, r.1.db))
      = (PyRocksOperator.close (mkRocksOperator resolve fsHas now configs cai cm i2 v2).1).map
        (fun r => (r.1.db_path, r.1.db)) := by
  cases cai <;>
    simp [mkRocksOperator, PyRocksOperator.connect, PyRocksOperator.close, Except.map]
